import Mathlib

/-
Shallow embedding of the NutrAICoach React frontend chat and authentication
client (src/react/frontend/src/services/authService.ts, chatService.ts,
src/react/frontend/src/components/Chat.tsx, and the AuthContext provider),
together with the spec-level Session API where the backend source is not part
of the repository snapshot.

Conventions:
- JavaScript `Date` values are modelled as milliseconds since the epoch (Int).
- `localStorage` is modelled as an association list from keys to strings.
- Possibly-`undefined` runtime fields are modelled with `Option`.
- Asynchronous HTTP calls are modelled by passing the call's outcome
  (`Except` of an error shape) as an explicit argument to the client code
  that awaits it.
-/

namespace NutriCoach

/-- Message role, from the `ChatMessage` interface in chatService.ts
(`role: 'user' | 'assistant'`). -/
inductive Role
  | user
  | assistant
deriving DecidableEq, Repr

/-- The `ChatMessage` interface of chatService.ts: role, content, and an
optional timestamp (`timestamp?: Date`), with `Date` modelled as milliseconds
since the epoch. -/
structure ChatMessage where
  role : Role
  content : String
  timestamp : Option Int
deriving DecidableEq, Repr

/-- The `SendMessageResponse` interface of chatService.ts. -/
structure SendMessageResponse where
  response : String
  message_id : Option String
deriving DecidableEq, Repr

/-- The `ChatHistoryItem` interface of the alternative chatService
implementation (unnamed part_001): a bare wire item with a numeric Unix
timestamp in seconds. -/
structure ChatHistoryItem where
  role : Role
  content : String
  timestamp : Int
deriving DecidableEq, Repr

/-- Error shape for failed API calls observed by the client. `httpError`
carries the HTTP status and the optional `detail` field of the response body;
`networkError` is a request that produced no response. -/
inductive ApiError
  | httpError (status : Nat) (detail : Option String)
  | networkError
deriving DecidableEq, Repr

/-- JavaScript-style character whitespace test, covering the characters
`String.prototype.trim` strips from chat input in this codebase. -/
def isJsWhitespace (c : Char) : Bool :=
  c == ' ' || c == '\t' || c == '\n' || c == '\r'

/-- Trim on a character list: drop whitespace from the front, then from the
back. -/
def trimChars (l : List Char) : List Char :=
  ((l.dropWhile isJsWhitespace).reverse.dropWhile isJsWhitespace).reverse

/-- Model of JavaScript `String.prototype.trim` as used by Chat.tsx on the
input message. -/
def jsTrim (s : String) : String :=
  String.mk (trimChars s.data)

/-- chatService.sendMessage (chatService.ts lines 25-35): posts the message,
returns `response.data` on success, and on failure logs and rethrows the very
error it caught. The single awaited HTTP outcome is the argument; the function
issues exactly one request and never retries. -/
def chatService.sendMessage (outcome : Except ApiError SendMessageResponse) :
    Except ApiError SendMessageResponse :=
  match outcome with
  | .ok r => .ok r
  | .error e => .error e

/-- The Chat component's state (Chat.tsx): the rendered message list, the
input box contents, the loading flag and the error banner. -/
structure ChatState where
  messages : List ChatMessage
  inputMessage : String
  isLoading : Bool
  error : Option String
deriving DecidableEq, Repr

/-- The error banner text Chat.tsx shows when sending fails. -/
def sendErrorBanner : String := "Errore nell\'invio del messaggio. Riprova."

/-- Chat.tsx handleSendMessage (lines 38-78). Early-returns when the trimmed
input is empty or a send is already in flight. Otherwise it clears the input
and error, optimistically appends the user message, awaits
chatService.sendMessage (outcome `gw`), and then either appends the assistant
reply, or — in the catch branch — sets the error banner, removes the user
message again (`setMessages(prev => prev.slice(0, -1))`) and restores the
trimmed text to the input box. `t1` and `t2` are the two `new Date()` values.
The returned flag records whether a request was actually issued. -/
def handleSendMessage (st : ChatState) (gw : Except ApiError SendMessageResponse)
    (t1 t2 : Int) : ChatState × Bool :=
  if jsTrim st.inputMessage = "" ∨ st.isLoading then (st, false)
  else
    let userMessage := jsTrim st.inputMessage
    let newUserMessage : ChatMessage := ⟨.user, userMessage, some t1⟩
    let st2 : ChatState :=
      { st with
        inputMessage := ""
        error := none
        messages := st.messages ++ [newUserMessage]
        isLoading := true }
    match chatService.sendMessage gw with
    | .ok resp =>
        let assistantMessage : ChatMessage := ⟨.assistant, resp.response, some t2⟩
        ({ st2 with
            messages := st2.messages ++ [assistantMessage]
            isLoading := false }, true)
    | .error _ =>
        ({ st2 with
            error := some sendErrorBanner
            messages := st2.messages.dropLast
            inputMessage := userMessage
            isLoading := false }, true)

/-- Browser `localStorage`, modelled as an association list from keys to
string values (at most one binding per key is maintained by the operations
below). -/
abbrev Storage := List (String × String)

/-- localStorage.getItem: first binding for the key, or `none`. -/
def getItem : Storage → String → Option String
  | [], _ => none
  | (k, v) :: rest, key => if k = key then some v else getItem rest key

/-- localStorage.removeItem: drop every binding for the key. -/
def removeItem : Storage → String → Storage
  | [], _ => []
  | (k, v) :: rest, key =>
      if k = key then removeItem rest key else (k, v) :: removeItem rest key

/-- localStorage.setItem: replace any binding for the key with the new
value. -/
def setItem (s : Storage) (key value : String) : Storage :=
  (key, value) :: removeItem s key

/-- Outgoing request configuration; only the Authorization header matters to
this client. -/
structure RequestConfig where
  authorization : Option String
deriving DecidableEq, Repr

/-- The axios request interceptor of authService.ts (lines 14-25): read the
token from localStorage and, when present, set the header
`Authorization: Bearer <token>`; otherwise leave the config untouched. -/
def requestInterceptor (store : Storage) (config : RequestConfig) : RequestConfig :=
  match getItem store "token" with
  | some t => { config with authorization := some ("Bearer " ++ t) }
  | none => config

/-- The shape of a rejected axios response as far as the response interceptor
inspects it: `error.response?.status`, `none` when no response arrived. -/
structure AxiosErrorShape where
  responseStatus : Option Nat
deriving DecidableEq, Repr

/-- The axios response interceptor of authService.ts (lines 28-38), error
branch: on HTTP 401 it removes the stored token and redirects to `/login`;
any other error leaves storage and location untouched. Returns the new
storage and the new `window.location.href`. -/
def responseInterceptorOnRejected (store : Storage) (locationHref : String)
    (err : AxiosErrorShape) : Storage × String :=
  if err.responseStatus = some 401 then (removeItem store "token", "/login")
  else (store, locationHref)

/-- The `User` interface of authService.ts: id, username, optional email. -/
structure User where
  id : String
  username : String
  email : Option String
deriving DecidableEq, Repr

/-- Runtime shape of the login response body. authService.ts declares
`LoginResponse` as `{ access_token, token_type, user }`, while
AuthContext.tsx reads top-level `user_id` and `username` properties from the
same object. Since axios performs no runtime validation, the raw body is
modelled with all of these fields, the statically-undeclared ones optional. -/
structure RawLoginResponse where
  access_token : String
  token_type : String
  user : Option User
  user_id : Option String
  username : Option String
deriving DecidableEq, Repr

/-- Outcome of the login HTTP call as authService.login discriminates it:
a successful response body, an axios error that carries a response (with its
optional `detail` field), or an error with no response. -/
inductive LoginCallOutcome
  | success (r : RawLoginResponse)
  | httpError (detail : Option String)
  | networkError
deriving DecidableEq, Repr

/-- authService.login (authService.ts lines 63-76): return the body on
success; on an axios error with a response throw
`Error(error.response.data.detail || 'Login failed')`; otherwise throw
`Error('Network error')`. The error is modelled by its message string. -/
def authService.login (outcome : LoginCallOutcome) :
    Except String RawLoginResponse :=
  match outcome with
  | .success r => .ok r
  | .httpError detail => .error (detail.getD "Login failed")
  | .networkError => .error "Network error"

/-- authService.logout (authService.ts lines 79-86): awaits the POST but
catches any error and only logs it, so the call always completes without
error regardless of the server outcome. -/
def authService.logout (serverOutcome : Except String Unit) : Except String Unit :=
  match serverOutcome with
  | .ok _ => .ok ()
  | .error _ => .ok ()

/-- The user object AuthContext.tsx builds after login. Its `id` and
`username` come from possibly-absent response properties, so they are
`Option` at runtime even though the `User` interface declares strings. -/
structure ContextUser where
  id : Option String
  username : Option String
  email : Option String
deriving DecidableEq, Repr

/-- The AuthProvider's client-side authentication state: the React `user`
state, the persisted localStorage contents, and the default Authorization
header installed on the axios client by `setAuthToken`. -/
structure AuthState where
  user : Option ContextUser
  storage : Storage
  authHeaderDefault : Option String
deriving Repr

/-- AuthProvider.login (AuthContext.tsx lines 59-75): on success builds
`{ id: response.user_id, username: response.username, email: '' }`, stores
the access token under localStorage key "token", installs the default header
via setAuthToken, and returns no error; on failure rethrows, leaving the
state untouched. Returns the new state and the error message, if any. -/
def AuthProvider.login (st : AuthState) (outcome : LoginCallOutcome) :
    AuthState × Option String :=
  match authService.login outcome with
  | .ok response =>
      let user : ContextUser :=
        { id := response.user_id
          username := response.username
          email := some "" }
      ({ user := some user
         storage := setItem st.storage "token" response.access_token
         authHeaderDefault := some ("Bearer " ++ response.access_token) }, none)
  | .error msg => (st, some msg)

/-- AuthProvider.logout (AuthContext.tsx lines 77-82): clears the user state,
removes the stored token, clears the default header, and fires
authService.logout with a `.catch(console.error)`, so the caller never
observes an error. Returns the new state and the caller-visible result. -/
def AuthProvider.logout (st : AuthState) (serverOutcome : Except String Unit) :
    AuthState × Except String Unit :=
  ({ user := none
     storage := removeItem st.storage "token"
     authHeaderDefault := none }, authService.logout serverOutcome)

/-- The storage-mutating client operations that touch localStorage in the
frontend sources: a successful login (AuthContext), a user logout
(AuthContext), discovery of an invalid token on mount (AuthContext effect),
and a 401 response (authService response interceptor). -/
inductive AuthStorageOp
  | loginSuccess (token : String)
  | logoutUser
  | invalidTokenOnMount
  | unauthorizedResponse
deriving DecidableEq, Repr

/-- Effect of each client operation on localStorage, read off the four call
sites: every one of them writes or removes only the key "token". -/
def applyAuthStorageOp (op : AuthStorageOp) (s : Storage) : Storage :=
  match op with
  | .loginSuccess t => setItem s "token" t
  | .logoutUser => removeItem s "token"
  | .invalidTokenOnMount => removeItem s "token"
  | .unauthorizedResponse => removeItem s "token"

/-- Conversion of one wire history item to a frontend message, as in the
alternative chatService (unnamed part_001, lines 43-47): role and content are
copied, the Unix timestamp in seconds becomes a Date
(`new Date(item.timestamp * 1000)`). -/
def itemToMessage (item : ChatHistoryItem) : ChatMessage :=
  { role := item.role
    content := item.content
    timestamp := some (item.timestamp * 1000) }

/-- chatService.getChatHistory of the alternative implementation (unnamed
part_001, lines 39-53), applied to the decoded array body: map every item to
a frontend message, preserving order. -/
def chatServiceB.getChatHistory (data : List ChatHistoryItem) : List ChatMessage :=
  data.map itemToMessage

/-- Runtime shape of the `/chat/history` response body: either an object with
optional `messages` and `total_messages` properties (the shape
chatService.ts declares) or a bare array of wire items (the shape the
alternative implementation in part_001 expects). -/
inductive RawHistoryBody
  | objectBody (messages : Option (List ChatMessage)) (total_messages : Option Nat)
  | arrayBody (items : List ChatHistoryItem)
deriving DecidableEq, Repr

/-- chatService.getChatHistory of chatService.ts (lines 38-46) as consumed by
Chat.tsx: it returns `response.data` unchanged and the caller reads
`.messages`. On an object body that is the `messages` property; a bare array
has no `messages` property, so the caller sees `undefined` (`none`). -/
def chatServiceA.getChatHistoryRaw (body : RawHistoryBody) : Option (List ChatMessage) :=
  match body with
  | .objectBody messages _ => messages
  | .arrayBody _ => none

/-- chatService.getChatHistory of unnamed part_001 (lines 39-53) on the raw
body: it calls `response.data.map`, which converts each item of an array
body; on an object body `.map` is not a function and the call throws
(`none`). -/
def chatServiceB.getChatHistoryRaw (body : RawHistoryBody) : Option (List ChatMessage) :=
  match body with
  | .arrayBody items => some (chatServiceB.getChatHistory items)
  | .objectBody _ _ => none

/-- Projection of a frontend message to the data both history decoders must
agree on: its role and content. -/
def roleContent (m : ChatMessage) : Role × String :=
  (m.role, m.content)

/-- Projection of a wire history item to its role and content. -/
def itemRoleContent (item : ChatHistoryItem) : Role × String :=
  (item.role, item.content)

/-- Modelled from the spec: the Session API `POST chat/send` handler lives in
the backend (react/backend/main.py), which is not part of this repository
snapshot — only its README and the frontend callers are. Per spec section 4.5:
resolve the token (else `Unauthorized`), reject an empty or whitespace-only
message with `InvalidInput`, append the user message, call the Assistant
Gateway, and on success append the assistant reply; on gateway failure the
user message remains appended and `GatewayUnavailable` is reported. -/
inductive SessionApiError
  | unauthorized
  | invalidInput
  | gatewayUnavailable
deriving DecidableEq, Repr

/-- Modelled from the spec: the `chat/send` composition of section 4.5 over
the current thread's message log. `tokenValid` is the result of resolving the
token, `gateway` the Assistant Gateway outcome. Returns the new log and the
caller-visible result. -/
def sessionApiSend (store : List ChatMessage) (tokenValid : Bool)
    (message : String) (gateway : Except Unit String) :
    List ChatMessage × Except SessionApiError String :=
  if tokenValid = false then (store, .error .unauthorized)
  else if jsTrim message = "" then (store, .error .invalidInput)
  else
    let store1 := store ++ [⟨.user, message, none⟩]
    match gateway with
    | .ok reply => (store1 ++ [⟨.assistant, reply, none⟩], .ok reply)
    | .error _ => (store1, .error .gatewayUnavailable)

/-- One send call as the Chat component drives it: the text typed into the
input box and the outcome of the resulting HTTP call. -/
structure SendCall where
  typed : String
  outcome : Except ApiError SendMessageResponse
deriving Repr

/-- Run a sequence of send calls through Chat.tsx handleSendMessage, typing
each call's text into the input box first (timestamps fixed at 0, as they do
not affect ordering). -/
def processSends (st : ChatState) : List SendCall → ChatState
  | [] => st
  | c :: cs =>
      processSends (handleSendMessage { st with inputMessage := c.typed } c.outcome 0 0).1 cs

/-- The messages a single send call contributes to the conversation view:
a user/assistant pair on success, nothing on failure (Chat.tsx removes the
optimistically-appended user message in its catch branch). -/
def contribution (c : SendCall) : List ChatMessage :=
  match c.outcome with
  | .ok r => [⟨.user, jsTrim c.typed, some 0⟩, ⟨.assistant, r.response, some 0⟩]
  | .error _ => []

/-- Concatenated contributions of a call sequence, in call order. -/
def contributions : List SendCall → List ChatMessage
  | [] => []
  | c :: cs => contribution c ++ contributions cs

/-- Number of calls in a sequence whose HTTP outcome succeeded. -/
def successCount : List SendCall → Nat
  | [] => 0
  | c :: cs => (match c.outcome with | .ok _ => 1 | .error _ => 0) + successCount cs

/-! Helper lemmas about the Chat component's send handler. -/

/-- Branch equation: a send with nonempty trimmed input, not already loading,
whose HTTP call succeeds, appends the user message and the assistant reply. -/
theorem handleSend_ok_eq (st : ChatState) (r : SendMessageResponse) (t1 t2 : Int)
    (hin : jsTrim st.inputMessage ≠ "") (hload : st.isLoading = false) :
    handleSendMessage st (.ok r) t1 t2 =
      ({ messages := st.messages ++ [⟨.user, jsTrim st.inputMessage, some t1⟩,
                                     ⟨.assistant, r.response, some t2⟩]
         inputMessage := ""
         isLoading := false
         error := none }, true) := by
  unfold handleSendMessage chatService.sendMessage
  simp [hin, hload]

/-- Branch equation: a send with nonempty trimmed input, not already loading,
whose HTTP call fails, removes the optimistically-appended user message,
restores the trimmed text to the input box and raises the error banner. -/
theorem handleSend_error_eq (st : ChatState) (e : ApiError) (t1 t2 : Int)
    (hin : jsTrim st.inputMessage ≠ "") (hload : st.isLoading = false) :
    handleSendMessage st (.error e) t1 t2 =
      ({ messages := st.messages
         inputMessage := jsTrim st.inputMessage
         isLoading := false
         error := some sendErrorBanner }, true) := by
  unfold handleSendMessage chatService.sendMessage
  simp [hin, hload, List.dropLast_concat]

/-- C1 (counterexample): at the concrete state with input "hello" and an
empty conversation, a send whose gateway call fails leaves the conversation
without the user's message — the message does not remain appended, and the
failed call contributes zero messages, not one. -/
theorem c1_counterexample :
    (⟨Role.user, "hello", some 0⟩ : ChatMessage) ∉
        ((handleSendMessage ⟨[], "hello", false, none⟩ (.error .networkError) 0 0).1).messages ∧
    ((handleSendMessage ⟨[], "hello", false, none⟩ (.error .networkError) 0 0).1).messages.length
      ≠ 1 := by
  decide

/-- C1 (amended): on every send whose HTTP call fails, Chat.tsx rolls the
user's message back out of the conversation — the message list afterwards
equals the list before the send, the trimmed text is restored to the input
box, and the error banner is raised; the failed call thus contributes zero
messages to the conversation view. -/
theorem c1_failure_rolls_back (st : ChatState) (e : ApiError) (t1 t2 : Int)
    (hin : jsTrim st.inputMessage ≠ "") (hload : st.isLoading = false) :
    ((handleSendMessage st (.error e) t1 t2).1).messages = st.messages ∧
    ((handleSendMessage st (.error e) t1 t2).1).inputMessage = jsTrim st.inputMessage ∧
    ((handleSendMessage st (.error e) t1 t2).1).error = some sendErrorBanner := by
  rw [handleSend_error_eq st e t1 t2 hin hload]
  exact ⟨rfl, rfl, rfl⟩

/-- C1 (witness): the amended rollback theorem applied at a concrete state
and failing call. -/
theorem c1_failure_rolls_back_witness :
    ((handleSendMessage ⟨[⟨Role.user, "a", none⟩], " hi ", false, none⟩
        (.error .networkError) 0 0).1).messages = [⟨Role.user, "a", none⟩] ∧
    ((handleSendMessage ⟨[⟨Role.user, "a", none⟩], " hi ", false, none⟩
        (.error .networkError) 0 0).1).inputMessage = jsTrim " hi " ∧
    ((handleSendMessage ⟨[⟨Role.user, "a", none⟩], " hi ", false, none⟩
        (.error .networkError) 0 0).1).error = some sendErrorBanner :=
  c1_failure_rolls_back ⟨[⟨Role.user, "a", none⟩], " hi ", false, none⟩
    .networkError 0 0 (by decide) (by decide)

/-- Concatenated contributions measure twice the number of successful
calls. -/
theorem contributions_length (calls : List SendCall) :
    (contributions calls).length = 2 * successCount calls := by
  induction calls with
  | nil => rfl
  | cons c cs ih =>
      cases h : c.outcome with
      | ok r =>
          simp only [contributions, contribution, successCount, h, List.length_append,
            List.length_cons, List.length_nil, ih]
          omega
      | error e => simp [contributions, contribution, successCount, h, ih]

/-- Folding a call sequence through the send handler appends exactly the
calls' contributions, provided each typed text is nonblank and no send is in
flight initially. -/
theorem processSends_messages (calls : List SendCall) (st : ChatState)
    (hload : st.isLoading = false)
    (hcalls : ∀ c ∈ calls, jsTrim c.typed ≠ "") :
    (processSends st calls).messages = st.messages ++ contributions calls ∧
    (processSends st calls).isLoading = false := by
  induction calls generalizing st with
  | nil => simpa [processSends, contributions] using hload
  | cons c cs ih =>
      have hc : jsTrim c.typed ≠ "" := hcalls c (by simp)
      have hcs : ∀ d ∈ cs, jsTrim d.typed ≠ "" := fun d hd => hcalls d (by simp [hd])
      cases hout : c.outcome with
      | ok r =>
          have hrec := ih ⟨st.messages ++ [⟨Role.user, jsTrim c.typed, some 0⟩,
              ⟨Role.assistant, r.response, some 0⟩], "", false, none⟩ rfl hcs
          simp only [processSends, hout,
            handleSend_ok_eq { st with inputMessage := c.typed } r 0 0 hc hload]
          refine ⟨?_, hrec.2⟩
          rw [hrec.1]
          simp [contributions, contribution, hout, List.append_assoc]
      | error e =>
          have hrec := ih ⟨st.messages, jsTrim c.typed, false, some sendErrorBanner⟩ rfl hcs
          simp only [processSends, hout,
            handleSend_error_eq { st with inputMessage := c.typed } e 0 0 hc hload]
          refine ⟨?_, hrec.2⟩
          rw [hrec.1]
          simp [contributions, contribution, hout]

/-- C2 (counterexample): starting from an empty conversation, a single send
whose gateway call fails leaves zero messages, not the one (user) message the
claim asserts a failed call contributes. -/
theorem c2_counterexample :
    (processSends ⟨[], "", false, none⟩
        [⟨"hi", .error .networkError⟩]).messages.length ≠ 1 := by
  decide

/-- C2 (amended): running any sequence of nonblank send calls from an empty
conversation yields exactly the per-call contributions in call order — each
successful call contributes its user message immediately followed by the
assistant reply, each failed call contributes nothing (it is rolled back) —
so the resulting conversation holds exactly twice as many messages as there
were successful calls, alternating user then assistant, with no other
message interleaved. -/
theorem c2_ordering (calls : List SendCall) (inp : String) (err : Option String)
    (hcalls : ∀ c ∈ calls, jsTrim c.typed ≠ "") :
    (processSends ⟨[], inp, false, err⟩ calls).messages = contributions calls ∧
    (processSends ⟨[], inp, false, err⟩ calls).messages.length
      = 2 * successCount calls := by
  have h := processSends_messages calls ⟨[], inp, false, err⟩ rfl hcalls
  refine ⟨by simpa using h.1, ?_⟩
  rw [show (processSends ⟨[], inp, false, err⟩ calls).messages = contributions calls
        from by simpa using h.1]
  exact contributions_length calls

/-- C2 (witness): the ordering theorem applied to a concrete two-call
sequence, one successful and one failed. -/
theorem c2_ordering_witness :
    (processSends ⟨[], "", false, none⟩
        [⟨"hi", .ok ⟨"hello", none⟩⟩, ⟨"again", .error .networkError⟩]).messages
      = contributions [⟨"hi", .ok ⟨"hello", none⟩⟩, ⟨"again", .error .networkError⟩] ∧
    (processSends ⟨[], "", false, none⟩
        [⟨"hi", .ok ⟨"hello", none⟩⟩, ⟨"again", .error .networkError⟩]).messages.length
      = 2 * successCount [⟨"hi", .ok ⟨"hello", none⟩⟩, ⟨"again", .error .networkError⟩] :=
  c2_ordering [⟨"hi", .ok ⟨"hello", none⟩⟩, ⟨"again", .error .networkError⟩] "" none
    (by decide)

/-! Helper lemmas about the localStorage model. -/

/-- Reading a key just set returns the new value. -/
theorem getItem_setItem_self (s : Storage) (key value : String) :
    getItem (setItem s key value) key = some value := by
  simp [setItem, getItem]

/-- Removing a key leaves every other key untouched. -/
theorem getItem_removeItem_ne (s : Storage) (key k : String) (h : k ≠ key) :
    getItem (removeItem s key) k = getItem s k := by
  induction s with
  | nil => rfl
  | cons kv rest ih =>
      obtain ⟨a, b⟩ := kv
      by_cases ha : a = key
      · subst ha
        have hak : a ≠ k := Ne.symm h
        simp [removeItem, getItem, hak, ih]
      · simp [removeItem, ha, getItem, ih]

/-- Reading a removed key returns nothing. -/
theorem getItem_removeItem_self (s : Storage) (key : String) :
    getItem (removeItem s key) key = none := by
  induction s with
  | nil => rfl
  | cons kv rest ih =>
      obtain ⟨a, b⟩ := kv
      by_cases ha : a = key <;> simp [removeItem, getItem, ha, ih]

/-- Removing a key twice is the same as removing it once. -/
theorem removeItem_removeItem (s : Storage) (key : String) :
    removeItem (removeItem s key) key = removeItem s key := by
  induction s with
  | nil => rfl
  | cons kv rest ih =>
      obtain ⟨a, b⟩ := kv
      by_cases ha : a = key <;> simp [removeItem, ha, ih]

/-- authService.logout resolves successfully whatever the server did. -/
theorem authService_logout_ok (o : Except String Unit) :
    authService.logout o = .ok () := by
  cases o <;> rfl

/-- C3 (counterexample): feed AuthProvider.login the exact body shape the
`LoginResponse` interface declares — token, token type and a nested user
summary with id "u1" and username "alice", no top-level `user_id` or
`username`. The authenticated user the client derives has id and username
`undefined`: it is not derived from the user summary. -/
theorem c3_counterexample :
    ((AuthProvider.login ⟨none, [], none⟩ (.success ⟨"tok123", "bearer",
        some ⟨"u1", "alice", none⟩, none, none⟩)).1).user
      = some ⟨none, none, some ""⟩ ∧
    (some (⟨none, none, some ""⟩ : ContextUser)) ≠
      some (⟨some "u1", some "alice", some ""⟩ : ContextUser) := by
  decide

/-- C3 (amended): on every successful login the client stores the access
token under localStorage key "token", installs the bearer default header, and
derives the authenticated user's id and username from the top-level `user_id`
and `username` properties of the response body — not from the nested user
summary the `LoginResponse` interface declares; on every failed login the
error detail (or "Login failed" when absent) is surfaced and the client state,
including the stored token, is unchanged. -/
theorem c3_login_behaviour (st : AuthState) (r : RawLoginResponse) (d : Option String) :
    ((AuthProvider.login st (.success r)).1).user
        = some ⟨r.user_id, r.username, some ""⟩ ∧
    getItem ((AuthProvider.login st (.success r)).1).storage "token"
        = some r.access_token ∧
    ((AuthProvider.login st (.success r)).1).authHeaderDefault
        = some ("Bearer " ++ r.access_token) ∧
    (AuthProvider.login st (.success r)).2 = none ∧
    (AuthProvider.login st (.httpError d)).1 = st ∧
    (AuthProvider.login st (.httpError d)).2 = some (d.getD "Login failed") := by
  refine ⟨rfl, ?_, rfl, rfl, rfl, rfl⟩
  simpa [AuthProvider.login, authService.login] using
    getItem_setItem_self st.storage "token" r.access_token

/-- C4: logout never errors and is idempotent — the second logout, with any
server outcome (including an already-invalid token being rejected), completes
without error exactly like the first and leaves the client state where the
first logout put it. -/
theorem c4_logout_idempotent (st : AuthState) (o1 o2 : Except String Unit) :
    (AuthProvider.logout st o1).2 = .ok () ∧
    (AuthProvider.logout ((AuthProvider.logout st o1).1) o2).2 = .ok () ∧
    (AuthProvider.logout ((AuthProvider.logout st o1).1) o2).1
      = (AuthProvider.logout st o1).1 := by
  refine ⟨authService_logout_ok o1, authService_logout_ok o2, ?_⟩
  simp [AuthProvider.logout, removeItem_removeItem]

/-- C5: an empty or whitespace-only message is rejected: the spec-modelled
Session API send handler returns `InvalidInput` and appends nothing to the
conversation log, and the Chat component's guard returns without issuing any
request or touching its state. -/
theorem c5_empty_message_rejected (store : List ChatMessage) (msg : String)
    (gwServer : Except Unit String) (st : ChatState)
    (gwClient : Except ApiError SendMessageResponse) (t1 t2 : Int)
    (hmsg : jsTrim msg = "") (hst : jsTrim st.inputMessage = "") :
    sessionApiSend store true msg gwServer = (store, .error .invalidInput) ∧
    handleSendMessage st gwClient t1 t2 = (st, false) := by
  constructor
  · simp [sessionApiSend, hmsg]
  · simp [handleSendMessage, hst]

/-- C5 (witness): the rejection theorem applied to a whitespace-only
message. -/
theorem c5_empty_message_rejected_witness :
    sessionApiSend [] true "   " (.ok "reply") = ([], .error .invalidInput) ∧
    handleSendMessage ⟨[], " ", false, none⟩ (.ok ⟨"reply", none⟩) 0 0
      = (⟨[], " ", false, none⟩, false) :=
  c5_empty_message_rejected [] "   " (.ok "reply") ⟨[], " ", false, none⟩
    (.ok ⟨"reply", none⟩) 0 0 (by decide) (by decide)

/-- C6: the history conversion of unnamed part_001 returns exactly one
message per wire item — same length, and at every index the message carries
the item's role and content with the Unix timestamp converted to a Date
(seconds times 1000) — so nothing is dropped, reordered or duplicated; the
conversion is a pure function of the response, so repeated calls on the same
response return identical sequences. -/
theorem c6_history_faithful (data : List ChatHistoryItem) (i : Nat) :
    (chatServiceB.getChatHistory data).length = data.length ∧
    (chatServiceB.getChatHistory data)[i]? =
      (data[i]?).map (fun item =>
        (⟨item.role, item.content, some (item.timestamp * 1000)⟩ : ChatMessage)) ∧
    chatServiceB.getChatHistory data = chatServiceB.getChatHistory data := by
  exact ⟨List.length_map data itemToMessage, List.getElem?_map itemToMessage data i, rfl⟩

/-- C7: whenever a token is stored, the request interceptor attaches it as a
`Bearer` Authorization header to the outgoing request; and every
storage-mutating operation of the frontend sources writes or removes only the
key "token", so the token is the only authentication state the client
persists. -/
theorem c7_bearer_header_token_only (store s : Storage) (cfg : RequestConfig)
    (t : String) (op : AuthStorageOp) (k : String)
    (htok : getItem store "token" = some t) (hk : k ≠ "token") :
    (requestInterceptor store cfg).authorization = some ("Bearer " ++ t) ∧
    getItem (applyAuthStorageOp op s) k = getItem s k := by
  constructor
  · simp [requestInterceptor, htok]
  · cases op <;>
      simp [applyAuthStorageOp, setItem, getItem, Ne.symm hk,
        getItem_removeItem_ne s "token" k hk]

/-- C7 (witness): the theorem applied to a concrete store holding a token and
a non-token key. -/
theorem c7_bearer_header_token_only_witness :
    (requestInterceptor [("token", "abc")] ⟨none⟩).authorization
      = some ("Bearer " ++ "abc") ∧
    getItem (applyAuthStorageOp .logoutUser [("token", "abc"), ("theme", "dark")]) "theme"
      = getItem [("token", "abc"), ("theme", "dark")] "theme" :=
  c7_bearer_header_token_only [("token", "abc")] [("token", "abc"), ("theme", "dark")]
    ⟨none⟩ "abc" .logoutUser "theme" (by decide) (by decide)

/-- C8: failures are surfaced verbatim with no retry: chatService.sendMessage
rethrows the very error of its single HTTP call, and authService.login maps
its single call's failure to an error carrying the server's detail message
verbatim (or the fixed fallbacks "Login failed" / "Network error" when no
detail is available). Each service function consumes exactly one call
outcome, so no silent retry is possible. -/
theorem c8_failures_surfaced_verbatim (e : ApiError) (d : String) :
    chatService.sendMessage (.error e) = .error e ∧
    authService.login (.httpError (some d)) = .error d ∧
    authService.login .networkError = .error "Network error" :=
  ⟨rfl, rfl, rfl⟩

/-- Projecting a converted wire item keeps its role and content. -/
theorem roleContent_itemToMessage (item : ChatHistoryItem) :
    roleContent (itemToMessage item) = itemRoleContent item := rfl

/-- C9 (counterexample): on the very same server response — a bare array with
one user item — the chatService.ts implementation reads an absent `messages`
property (`undefined`) while the part_001 implementation maps the array to
one message, so the two do not produce the same message sequence. -/
theorem c9_counterexample :
    chatServiceA.getChatHistoryRaw (.arrayBody [⟨Role.user, "hi", 5⟩]) ≠
      chatServiceB.getChatHistoryRaw (.arrayBody [⟨Role.user, "hi", 5⟩]) := by
  decide

/-- C9 (amended): the two implementations expect different wire formats and
disagree on any single raw body; but applied each to its own encoding of the
same underlying sequence — the object body carrying the already-converted
messages for chatService.ts, the bare item array for part_001 — they produce
message sequences with the same roles and contents in the same order. -/
theorem c9_same_sequence_on_own_encodings (msgs : List ChatMessage)
    (items : List ChatHistoryItem)
    (h : msgs.map roleContent = items.map itemRoleContent) :
    (chatServiceA.getChatHistoryRaw (.objectBody (some msgs) (some msgs.length))).map
        (List.map roleContent)
      = (chatServiceB.getChatHistoryRaw (.arrayBody items)).map
          (List.map roleContent) := by
  simp only [chatServiceA.getChatHistoryRaw, chatServiceB.getChatHistoryRaw,
    chatServiceB.getChatHistory, Option.map_some', h, List.map_map]
  congr 1

/-- C9 (witness): the agreement theorem applied to a one-message sequence in
both encodings. -/
theorem c9_same_sequence_witness :
    (chatServiceA.getChatHistoryRaw (.objectBody
        (some [⟨Role.user, "hi", some 5000⟩]) (some 1))).map (List.map roleContent)
      = (chatServiceB.getChatHistoryRaw (.arrayBody [⟨Role.user, "hi", 5⟩])).map
          (List.map roleContent) :=
  c9_same_sequence_on_own_encodings [⟨Role.user, "hi", some 5000⟩]
    [⟨Role.user, "hi", 5⟩] (by decide)

/-- C10: whenever any API response arrives with HTTP status 401, the response
interceptor removes the stored token and redirects to the login page; the
storage no longer resolves the key "token", so a subsequent request carries
no Authorization header — the client does not hold or reuse a token after
observing a 401. -/
theorem c10_unauthorized_clears_token (store : Storage) (locationHref : String)
    (err : AxiosErrorShape) (cfg : RequestConfig)
    (h : err.responseStatus = some 401) :
    getItem (responseInterceptorOnRejected store locationHref err).1 "token" = none ∧
    (responseInterceptorOnRejected store locationHref err).2 = "/login" ∧
    requestInterceptor (responseInterceptorOnRejected store locationHref err).1 cfg
      = cfg := by
  refine ⟨?_, ?_, ?_⟩ <;>
    simp [responseInterceptorOnRejected, h, getItem_removeItem_self, requestInterceptor]

/-- C10 (witness): the theorem applied to a concrete 401 rejection with a
stored token. -/
theorem c10_unauthorized_clears_token_witness :
    getItem (responseInterceptorOnRejected [("token", "abc")] "/chat" ⟨some 401⟩).1 "token"
      = none ∧
    (responseInterceptorOnRejected [("token", "abc")] "/chat" ⟨some 401⟩).2 = "/login" ∧
    requestInterceptor (responseInterceptorOnRejected [("token", "abc")] "/chat"
        ⟨some 401⟩).1 ⟨none⟩ = ⟨none⟩ :=
  c10_unauthorized_clears_token [("token", "abc")] "/chat" ⟨some 401⟩ ⟨none⟩ rfl

end NutriCoach
